import Mathlib

/-!
Verification of the chroma client façade (`chromadb/api/client.py`):
the process-wide system identity registry (`SharedSystemClient`), the
tenant/database-scoped `Client` proxy and the `AdminClient` proxy.

The embedding follows the Python source closely:
* `Settings` is the connection-configuration record, with the fields the
  façade reads (`chroma_api_impl`, `is_persistent`, `persist_directory`,
  `chroma_server_host`, `chroma_server_http_port`) plus an opaque field for
  all the other configuration options, which the façade only ever compares
  for equality.
* Object identity (Python `is`) is modelled by an allocation counter: every
  freshly constructed `System` receives a fresh `sysId`, so two model values
  are the same runtime object exactly when they are equal.
* The three distinct `raise ValueError(...)` sites of the source are mapped
  to the three constructors of `ChromaError` named by the spec's error
  taxonomy, plus one constructor for exceptions propagating from external
  capabilities (such as telemetry capture).
* A raised exception is modelled by `Except.error`; a Python dict `KeyError`
  on lookup is modelled by `Option.none`.
-/

/-- Connection settings, as read by `chromadb/api/client.py`. The
`chroma_api_impl` field is the backend kind (absent = unset); `otherOptions`
stands for every remaining configuration option, which this façade only
compares for structural equality (`previous_system.settings != settings`).
`chroma_server_host` and `chroma_server_http_port` hold the string rendering
that the f-string interpolation of the source produces. -/
structure Settings where
  chroma_api_impl : Option String
  is_persistent : Bool
  persist_directory : String
  chroma_server_host : String
  chroma_server_http_port : String
  otherOptions : List (String × String)
deriving DecidableEq, Repr

/-- The error taxonomy of the façade. `configurationError`,
`unsupportedImplementationError` and `settingsConflictError` are the three
distinct `raise ValueError(...)` sites of `SharedSystemClient`;
`externalError` embeds an exception raised by an external capability and
passing through the façade unchanged. -/
inductive ChromaError where
  | configurationError : ChromaError
  | unsupportedImplementationError : String → ChromaError
  | settingsConflictError : String → ChromaError
  | externalError : String → ChromaError
deriving DecidableEq, Repr

/-- Embeds `SharedSystemClient._get_identifier_from_settings`: derives the registry
identifier from the settings. Unset backend kind and unrecognized backend
kind are the two failing branches of the source. -/
def getIdentifierFromSettings (settings : Settings) : Except ChromaError String :=
  match settings.chroma_api_impl with
  | none => .error .configurationError
  | some api_impl =>
    if api_impl = "chromadb.api.segment.SegmentAPI" then
      if settings.is_persistent then
        .ok settings.persist_directory
      else
        .ok "ephemeral"
    else if api_impl = "chromadb.api.fastapi.FastAPI" then
      .ok (settings.chroma_server_host ++ ":" ++ settings.chroma_server_http_port)
    else
      .error (.unsupportedImplementationError api_impl)

/-- A backend `System` instance. `sysId` is the allocation identity: the
registry hands out a fresh `sysId` for every `System(settings)` construction,
so equality of `System` values is object identity. -/
structure System where
  sysId : Nat
  settings : Settings
deriving DecidableEq, Repr

/-- Lifecycle events observable on backend instances. The façade itself
emits `constructed` (the `System(settings)` call) and `started` (the
`new_system.start()` call); it never emits `stopped`: no code path of
`chromadb/api/client.py` tears a system down. -/
inductive Event where
  | constructed (sysId : Nat)
  | started (sysId : Nat)
  | stopped (sysId : Nat)
deriving DecidableEq, Repr

/-- The process-wide registry state: the class variable
`SharedSystemClient._identifer_to_system` (dict, modelled as an association
list with most-recent insertion first) together with the allocation counter
that implements object identity. -/
structure RegistryState where
  identiferToSystem : List (String × System)
  nextId : Nat
deriving DecidableEq, Repr

/-- The initial registry state: empty dict, no allocations yet. -/
def emptyRegistry : RegistryState := ⟨[], 0⟩

/-- Dict lookup (`cls._identifer_to_system[identifier]` /
`identifier in cls._identifer_to_system`): `none` models absence
(respectively a `KeyError`). -/
def lookupSystem : List (String × System) → String → Option System
  | [], _ => none
  | (k, v) :: rest, identifier =>
    if k = identifier then some v else lookupSystem rest identifier

/-- Embeds `SharedSystemClient._create_system_if_not_exists`. Returns the resulting
system (or the raised error), the registry state after the call, and the
lifecycle events emitted. On the absent branch the source constructs
`System(settings)`, inserts it, resolves its capabilities and starts it; on
the present branch it compares the stored settings with the requested ones
by value and either returns the stored instance or raises. -/
def createSystemIfNotExists (st : RegistryState) (identifier : String)
    (settings : Settings) :
    Except ChromaError System × RegistryState × List Event :=
  match lookupSystem st.identiferToSystem identifier with
  | none =>
    let newSystem : System := ⟨st.nextId, settings⟩
    (.ok newSystem,
      ⟨(identifier, newSystem) :: st.identiferToSystem, st.nextId + 1⟩,
      [.constructed newSystem.sysId, .started newSystem.sysId])
  | some previousSystem =>
    if previousSystem.settings = settings then
      (.ok previousSystem, st, [])
    else
      (.error (.settingsConflictError identifier), st, [])

/-- Embeds `SharedSystemClient.clear_system_cache`: replaces the mapping with an
empty dict. It emits no lifecycle events (in particular no `stopped`) and
leaves the allocation counter alone: objects evicted from the dict still
exist, so later allocations are still distinct from them. -/
def clearSystemCache (st : RegistryState) : RegistryState × List Event :=
  (⟨[], st.nextId⟩, [])

/-- The `SharedSystemClient._system` property:
`SharedSystemClient._identifer_to_system[self._identifier]`. `none` models
the `KeyError` the dict raises when the identifier is absent. -/
def systemOf (st : RegistryState) (identifier : String) : Option System :=
  lookupSystem st.identiferToSystem identifier

/-- Embeds `SharedSystemClient.__init__`: resolves the identifier from the settings
and runs the registry get-or-create. Both `Client.__init__` and
`AdminClient.__init__` go through this path via `super().__init__`. -/
def sharedSystemClientInit (st : RegistryState) (settings : Settings) :
    Except ChromaError (String × System) × RegistryState × List Event :=
  match getIdentifierFromSettings settings with
  | .error e => (.error e, st, [])
  | .ok identifier =>
    match createSystemIfNotExists st identifier settings with
    | (.ok sys, st1, evs) => (.ok (identifier, sys), st1, evs)
    | (.error e, st1, evs) => (.error e, st1, evs)

/-- The state of a `Client` proxy: its registry identifier (from
`SharedSystemClient`), its tenant and database, and the identity of the
system whose `ServerAPI` instance it captured as `self._server`. -/
structure ClientHandle where
  identifier : String
  tenant : String
  database : String
  serverRef : Nat
deriving DecidableEq, Repr

/-- Embeds `Client.__init__`. After the shared initialization it binds
`self._server`, then calls `telemetry_client.capture(ClientStartEvent())`
with no enclosing `try`/`except`: a failure raised by the capture —
modelled by `captureFailure = some msg` — propagates out of the
constructor. The registry mutation performed by the shared initialization
is retained either way. -/
def clientInit (st : RegistryState) (tenant database : String)
    (settings : Settings) (captureFailure : Option String) :
    Except ChromaError ClientHandle × RegistryState × List Event :=
  match sharedSystemClientInit st settings with
  | (.ok (identifier, sys), st1, evs) =>
    match captureFailure with
    | none => (.ok ⟨identifier, tenant, database, sys.sysId⟩, st1, evs)
    | some msg => (.error (.externalError msg), st1, evs)
  | (.error e, st1, evs) => (.error e, st1, evs)

/-- Embeds `AdminClient.__init__`: shared initialization, then binds
`self._server`; no telemetry capture. -/
def adminClientInit (st : RegistryState) (settings : Settings) :
    Except ChromaError (String × Nat) × RegistryState × List Event :=
  match sharedSystemClientInit st settings with
  | (.ok (identifier, sys), st1, evs) => (.ok (identifier, sys.sysId), st1, evs)
  | (.error e, st1, evs) => (.error e, st1, evs)

/-- One registry-affecting operation: a construction of any of the three
client kinds (all mutate the registry only through
`SharedSystemClient.__init__`), or `clear_system_cache`. -/
inductive RegOp where
  | construct (settings : Settings)
  | clear
deriving DecidableEq, Repr

/-- Effect of one registry operation on the registry state. -/
def regStep (st : RegistryState) : RegOp → RegistryState
  | .construct settings => (sharedSystemClientInit st settings).2.1
  | .clear => (clearSystemCache st).1

/-- Effect of a sequence of registry operations. -/
def regRun (st : RegistryState) : List RegOp → RegistryState
  | [] => st
  | op :: ops => regRun (regStep st op) ops

/-- A registry state is reachable when some operation sequence leads to it
from the initial empty state. -/
def Reachable (st : RegistryState) : Prop :=
  ∃ ops : List RegOp, regRun emptyRegistry ops = st

/-- Registry well-formedness: every stored system was allocated below the
allocation counter, and no identifier occurs twice in the dict. -/
def RegistryWF (st : RegistryState) : Prop :=
  (∀ p ∈ st.identiferToSystem, p.2.sysId < st.nextId) ∧
    (st.identiferToSystem.map Prod.fst).Nodup

/-- An embedding function object. `efId` is the allocation identity, as for
`System`. -/
structure EmbeddingFunction where
  efId : Nat
deriving DecidableEq, Repr

/-- Modelled from the spec: `chromadb.utils.embedding_functions`, from which
the source takes `ef.DefaultEmbeddingFunction()`, is not among the sources
under verification. Per the spec the default is one shared, immutable,
process-wide embedding-function instance — "process-wide configuration, not
per-call state" — so the model exposes it as a single constant that every
evaluation of `ef.DefaultEmbeddingFunction()` returns. -/
def DefaultEmbeddingFunction : EmbeddingFunction := ⟨0⟩

/-- An optional method argument of a Python call: `omitted` is an absent
argument (the parameter's default applies), `supplied v` an explicitly
passed value — possibly the explicit `None`, which does NOT trigger the
default. -/
inductive Arg (α : Type) where
  | omitted : Arg α
  | supplied (v : α) : Arg α
deriving DecidableEq, Repr

/-- Python parameter-default resolution: an omitted argument takes the
default value, a supplied one is used as passed. -/
def Arg.resolve (a : Arg α) (default : α) : α :=
  match a with
  | .omitted => default
  | .supplied v => v

/-- A projection of one call forwarded to the `ServerAPI` capability. It
records the server method invoked and exactly the keyword arguments that the
façade itself injects or substitutes: `tenant=`, `database=` and
`embedding_function=` (`none` = the call site does not pass that keyword
argument at all). Data arguments (names, ids, embeddings, filters, ...) are
forwarded verbatim by one-line forwards and are not tracked. -/
structure ForwardedCall where
  method : String
  tenant : Option String
  database : Option String
  embedding_function : Option (Option EmbeddingFunction)
deriving DecidableEq, Repr

namespace Client

/-- Embeds `Client.set_tenant`: `self.tenant = tenant`. -/
def set_tenant (c : ClientHandle) (tenant : String) : ClientHandle :=
  { c with tenant := tenant }

/-- Embeds `Client.set_database`: `self.database = database`. -/
def set_database (c : ClientHandle) (database : String) : ClientHandle :=
  { c with database := database }

/-- Embeds `Client.heartbeat`: `self._server.heartbeat()`. -/
def heartbeat (_c : ClientHandle) : ForwardedCall :=
  { method := "heartbeat", tenant := none, database := none,
    embedding_function := none }

/-- Embeds `Client.list_collections`: forwards with `tenant=self.tenant,
database=self.database`. -/
def list_collections (c : ClientHandle) : ForwardedCall :=
  { method := "list_collections", tenant := some c.tenant,
    database := some c.database, embedding_function := none }

/-- Embeds `Client.create_collection`: the `embedding_function` parameter defaults
to `ef.DefaultEmbeddingFunction()`; the call forwards it together with
`tenant=self.tenant, database=self.database`. -/
def create_collection (c : ClientHandle)
    (embedding_function : Arg (Option EmbeddingFunction)) : ForwardedCall :=
  { method := "create_collection", tenant := some c.tenant,
    database := some c.database,
    embedding_function :=
      some (embedding_function.resolve (some DefaultEmbeddingFunction)) }

/-- Embeds `Client.get_collection`: same default and forwarding as
`create_collection`. -/
def get_collection (c : ClientHandle)
    (embedding_function : Arg (Option EmbeddingFunction)) : ForwardedCall :=
  { method := "get_collection", tenant := some c.tenant,
    database := some c.database,
    embedding_function :=
      some (embedding_function.resolve (some DefaultEmbeddingFunction)) }

/-- Embeds `Client.get_or_create_collection`: same default and forwarding as
`create_collection`. -/
def get_or_create_collection (c : ClientHandle)
    (embedding_function : Arg (Option EmbeddingFunction)) : ForwardedCall :=
  { method := "get_or_create_collection", tenant := some c.tenant,
    database := some c.database,
    embedding_function :=
      some (embedding_function.resolve (some DefaultEmbeddingFunction)) }

/-- Embeds `Client.delete_collection`: forwards with `tenant=self.tenant,
database=self.database`. -/
def delete_collection (c : ClientHandle) : ForwardedCall :=
  { method := "delete_collection", tenant := some c.tenant,
    database := some c.database, embedding_function := none }

/-- Embeds `Client._modify`: forwards id and new name/metadata only; no tenant or
database keyword argument is passed. -/
def _modify (_c : ClientHandle) : ForwardedCall :=
  { method := "_modify", tenant := none, database := none,
    embedding_function := none }

/-- Embeds `Client._add`: forwards item data only. -/
def _add (_c : ClientHandle) : ForwardedCall :=
  { method := "_add", tenant := none, database := none,
    embedding_function := none }

/-- Embeds `Client._update`: forwards item data only. -/
def _update (_c : ClientHandle) : ForwardedCall :=
  { method := "_update", tenant := none, database := none,
    embedding_function := none }

/-- Embeds `Client._upsert`: forwards item data only. -/
def _upsert (_c : ClientHandle) : ForwardedCall :=
  { method := "_upsert", tenant := none, database := none,
    embedding_function := none }

/-- Embeds `Client._count`: forwards the collection id only. -/
def _count (_c : ClientHandle) : ForwardedCall :=
  { method := "_count", tenant := none, database := none,
    embedding_function := none }

/-- Embeds `Client._peek`: forwards the collection id and n only. -/
def _peek (_c : ClientHandle) : ForwardedCall :=
  { method := "_peek", tenant := none, database := none,
    embedding_function := none }

/-- Embeds `Client._get`: forwards the collection id and filters only. -/
def _get (_c : ClientHandle) : ForwardedCall :=
  { method := "_get", tenant := none, database := none,
    embedding_function := none }

/-- Embeds `Client._delete`: forwards the collection id and filters only. -/
def _delete (_c : ClientHandle) : ForwardedCall :=
  { method := "_delete", tenant := none, database := none,
    embedding_function := none }

/-- Embeds `Client._query`: forwards the collection id, query embeddings and
filters only. -/
def _query (_c : ClientHandle) : ForwardedCall :=
  { method := "_query", tenant := none, database := none,
    embedding_function := none }

/-- Embeds `Client.reset`: `self._server.reset()`. -/
def reset (_c : ClientHandle) : ForwardedCall :=
  { method := "reset", tenant := none, database := none,
    embedding_function := none }

/-- Embeds `Client.get_version`: `self._server.get_version()`. -/
def get_version (_c : ClientHandle) : ForwardedCall :=
  { method := "get_version", tenant := none, database := none,
    embedding_function := none }

/-- Embeds `Client.get_settings`: `self._server.get_settings()`. -/
def get_settings (_c : ClientHandle) : ForwardedCall :=
  { method := "get_settings", tenant := none, database := none,
    embedding_function := none }

/-- Embeds `Client.max_batch_size`: `self._server.max_batch_size`. -/
def max_batch_size (_c : ClientHandle) : ForwardedCall :=
  { method := "max_batch_size", tenant := none, database := none,
    embedding_function := none }

end Client

/-- One operation issued on a `Client` proxy: either a tenant/database
mutation or one of the forwarded methods. -/
inductive ProxyOp where
  | setTenant (t : String)
  | setDatabase (d : String)
  | heartbeat
  | listCollections
  | createCollection (ef : Arg (Option EmbeddingFunction))
  | getCollection (ef : Arg (Option EmbeddingFunction))
  | getOrCreateCollection (ef : Arg (Option EmbeddingFunction))
  | deleteCollection
  | modifyCollection
  | addItems
  | updateItems
  | upsertItems
  | countItems
  | peekItems
  | getItems
  | deleteItems
  | queryItems
  | resetServer
  | getVersion
  | getSettings
  | maxBatchSize
deriving DecidableEq, Repr

/-- One step of a `Client` proxy: the successor proxy state and the calls
dispatched to the `ServerAPI` capability (one for a forwarded method, none
for a setter). -/
def clientStep (c : ClientHandle) : ProxyOp → ClientHandle × List ForwardedCall
  | .setTenant t => (Client.set_tenant c t, [])
  | .setDatabase d => (Client.set_database c d, [])
  | .heartbeat => (c, [Client.heartbeat c])
  | .listCollections => (c, [Client.list_collections c])
  | .createCollection ef => (c, [Client.create_collection c ef])
  | .getCollection ef => (c, [Client.get_collection c ef])
  | .getOrCreateCollection ef => (c, [Client.get_or_create_collection c ef])
  | .deleteCollection => (c, [Client.delete_collection c])
  | .modifyCollection => (c, [Client._modify c])
  | .addItems => (c, [Client._add c])
  | .updateItems => (c, [Client._update c])
  | .upsertItems => (c, [Client._upsert c])
  | .countItems => (c, [Client._count c])
  | .peekItems => (c, [Client._peek c])
  | .getItems => (c, [Client._get c])
  | .deleteItems => (c, [Client._delete c])
  | .queryItems => (c, [Client._query c])
  | .resetServer => (c, [Client.reset c])
  | .getVersion => (c, [Client.get_version c])
  | .getSettings => (c, [Client.get_settings c])
  | .maxBatchSize => (c, [Client.max_batch_size c])

/-- Running a sequence of proxy operations: final proxy state and the
dispatched calls in order. -/
def clientRun (c : ClientHandle) : List ProxyOp → ClientHandle × List ForwardedCall
  | [] => (c, [])
  | op :: ops =>
    let s := clientStep c op
    let r := clientRun s.1 ops
    (r.1, s.2 ++ r.2)

/-- Example settings: embedded/local backend, persistence enabled, persist
directory `/tmp/x`. -/
def segmentPersistentSettings : Settings :=
  { chroma_api_impl := some "chromadb.api.segment.SegmentAPI",
    is_persistent := true, persist_directory := "/tmp/x",
    chroma_server_host := "localhost", chroma_server_http_port := "8000",
    otherOptions := [] }

/-- Example settings: embedded/local backend, persistence disabled. -/
def segmentEphemeralSettings : Settings :=
  { chroma_api_impl := some "chromadb.api.segment.SegmentAPI",
    is_persistent := false, persist_directory := "./chroma",
    chroma_server_host := "localhost", chroma_server_http_port := "8000",
    otherOptions := [] }

/-- Example settings: remote/server backend, host `h`, port `8000`. -/
def fastapiSettings : Settings :=
  { chroma_api_impl := some "chromadb.api.fastapi.FastAPI",
    is_persistent := false, persist_directory := "./chroma",
    chroma_server_host := "h", chroma_server_http_port := "8000",
    otherOptions := [] }

/-- Example settings with the backend kind unset. -/
def unsetSettings : Settings :=
  { chroma_api_impl := none,
    is_persistent := false, persist_directory := "./chroma",
    chroma_server_host := "localhost", chroma_server_http_port := "8000",
    otherOptions := [] }

/-- Example settings with an unrecognized backend kind. -/
def bogusSettings : Settings :=
  { chroma_api_impl := some "my.custom.Backend",
    is_persistent := false, persist_directory := "./chroma",
    chroma_server_host := "localhost", chroma_server_http_port := "8000",
    otherOptions := [] }

/-- The system allocated by the first ephemeral construction from the empty
registry. -/
def sysW : System := ⟨0, segmentEphemeralSettings⟩

/-- The registry state after one ephemeral construction from the empty
registry. -/
def regW : RegistryState := ⟨[("ephemeral", sysW)], 1⟩

theorem lookupSystem_eq_none_iff {l : List (String × System)} {identifier : String} :
    lookupSystem l identifier = none ↔ identifier ∉ l.map Prod.fst := by
  induction l with
  | nil => simp [lookupSystem]
  | cons p rest ih =>
    obtain ⟨k, v⟩ := p
    by_cases hk : k = identifier
    · subst hk
      simp [lookupSystem]
    · simp [lookupSystem, hk, ih, Ne.symm hk]

theorem lookupSystem_cons (k : String) (v : System) (l : List (String × System))
    (identifier : String) :
    lookupSystem ((k, v) :: l) identifier =
      if k = identifier then some v else lookupSystem l identifier := rfl


/-- Facts about a successful `SharedSystemClient.__init__`: the identifier
is the resolution of the settings, the returned system carries exactly the
requested settings, the post-state maps the identifier to the returned
system, and the post-state extends the pre-state either not at all or by
exactly that one fresh entry. -/
theorem sharedInit_ok_facts (st : RegistryState) (s : Settings)
    (id : String) (sys : System) (st1 : RegistryState) (evs : List Event)
    (h : sharedSystemClientInit st s = (.ok (id, sys), st1, evs)) :
    getIdentifierFromSettings s = .ok id ∧ sys.settings = s ∧
      systemOf st1 id = some sys ∧
      (st1 = st ∨
        (lookupSystem st.identiferToSystem id = none ∧ sys = ⟨st.nextId, s⟩ ∧
          st1 = ⟨(id, sys) :: st.identiferToSystem, st.nextId + 1⟩)) := by
  cases hid : getIdentifierFromSettings s with
  | error e => simp [sharedSystemClientInit, hid] at h
  | ok identifier =>
    cases hl : lookupSystem st.identiferToSystem identifier with
    | none =>
      simp only [sharedSystemClientInit, hid, createSystemIfNotExists, hl,
        Prod.mk.injEq, Except.ok.injEq] at h
      obtain ⟨⟨hida, hsys⟩, hst, _⟩ := h
      subst hida
      subst hsys
      subst hst
      refine ⟨rfl, rfl, ?_, .inr ⟨hl, rfl, rfl⟩⟩
      simp [systemOf, lookupSystem_cons]
    | some prev =>
      by_cases hp : prev.settings = s
      · simp only [sharedSystemClientInit, hid, createSystemIfNotExists, hl,
          if_pos hp, Prod.mk.injEq, Except.ok.injEq] at h
        obtain ⟨⟨hida, hsys⟩, hst, _⟩ := h
        subst hida
        subst hsys
        subst hst
        exact ⟨rfl, hp, hl, .inl rfl⟩
      · simp only [sharedSystemClientInit, hid, createSystemIfNotExists, hl,
          if_neg hp] at h
        simp at h

/-- A construction step never removes or replaces an existing registry
entry. -/
theorem systemOf_construct_preserved (st : RegistryState) (s : Settings)
    (identifier : String) (sys : System)
    (h : systemOf st identifier = some sys) :
    systemOf (regStep st (.construct s)) identifier = some sys := by
  show systemOf (sharedSystemClientInit st s).2.1 identifier = some sys
  cases hid : getIdentifierFromSettings s with
  | error e => simpa [sharedSystemClientInit, hid] using h
  | ok id2 =>
    cases hl : lookupSystem st.identiferToSystem id2 with
    | none =>
      have hne : id2 ≠ identifier := by
        intro he
        subst he
        rw [systemOf] at h
        rw [h] at hl
        exact Option.noConfusion hl
      simp only [sharedSystemClientInit, hid, createSystemIfNotExists, hl]
      simpa [systemOf, lookupSystem_cons, hne] using h
    | some prev =>
      by_cases hp : prev.settings = s
      · simpa [sharedSystemClientInit, hid, createSystemIfNotExists, hl,
          if_pos hp] using h
      · simpa [sharedSystemClientInit, hid, createSystemIfNotExists, hl,
          if_neg hp] using h

/-- Registry well-formedness is preserved by every registry operation. -/
theorem registryWF_regStep {st : RegistryState} (h : RegistryWF st) (op : RegOp) :
    RegistryWF (regStep st op) := by
  cases op with
  | clear =>
    constructor
    · intro p hp
      simp [regStep, clearSystemCache] at hp
    · simp [regStep, clearSystemCache]
  | construct s =>
    show RegistryWF (sharedSystemClientInit st s).2.1
    cases hid : getIdentifierFromSettings s with
    | error e => simpa [sharedSystemClientInit, hid] using h
    | ok identifier =>
      cases hl : lookupSystem st.identiferToSystem identifier with
      | none =>
        simp only [sharedSystemClientInit, hid, createSystemIfNotExists, hl]
        constructor
        · intro p hp
          simp only [List.mem_cons] at hp
          cases hp with
          | inl he => subst he; exact Nat.lt_succ_self _
          | inr hmem => exact Nat.lt_trans (h.1 p hmem) (Nat.lt_succ_self _)
        · simp only [List.map_cons, List.nodup_cons]
          exact ⟨lookupSystem_eq_none_iff.mp hl, h.2⟩
      | some prev =>
        by_cases hp : prev.settings = s
        · simpa [sharedSystemClientInit, hid, createSystemIfNotExists, hl,
            if_pos hp] using h
        · simpa [sharedSystemClientInit, hid, createSystemIfNotExists, hl,
            if_neg hp] using h

theorem registryWF_regRun {st : RegistryState} (h : RegistryWF st)
    (ops : List RegOp) : RegistryWF (regRun st ops) := by
  induction ops generalizing st with
  | nil => exact h
  | cons op ops ih => exact ih (registryWF_regStep h op)

/-- Every reachable registry state is well-formed. -/
theorem registryWF_of_reachable {st : RegistryState} (h : Reachable st) :
    RegistryWF st := by
  obtain ⟨ops, rfl⟩ := h
  refine registryWF_regRun ⟨?_, ?_⟩ ops
  · intro p hp
    simp [emptyRegistry] at hp
  · simp [emptyRegistry]

/-- Splitting a proxy-operation run at any point: the calls dispatched by
the prefix depend only on the prefix. -/
theorem clientRun_append (c : ClientHandle) (ops1 ops2 : List ProxyOp) :
    clientRun c (ops1 ++ ops2) =
      ((clientRun (clientRun c ops1).1 ops2).1,
        (clientRun c ops1).2 ++ (clientRun (clientRun c ops1).1 ops2).2) := by
  induction ops1 generalizing c with
  | nil => simp [clientRun]
  | cons op ops ih => simp [clientRun, ih ((clientStep c op).1)]

/-- C3: identifier resolution is a deterministic total function: it fails
with `ConfigurationError` when the backend kind is unset, fails with
`UnsupportedImplementationError` when the kind is set but unrecognized,
returns the persist-directory path for the embedded/local kind with
persistence enabled, returns the literal "ephemeral" for the embedded/local
kind with persistence disabled, and returns host:port for the remote/server
kind. -/
theorem identifier_resolution_spec (s : Settings) :
    (s.chroma_api_impl = none →
      getIdentifierFromSettings s = .error .configurationError) ∧
    (s.chroma_api_impl = some "chromadb.api.segment.SegmentAPI" →
      s.is_persistent = true →
      getIdentifierFromSettings s = .ok s.persist_directory) ∧
    (s.chroma_api_impl = some "chromadb.api.segment.SegmentAPI" →
      s.is_persistent = false →
      getIdentifierFromSettings s = .ok "ephemeral") ∧
    (s.chroma_api_impl = some "chromadb.api.fastapi.FastAPI" →
      getIdentifierFromSettings s =
        .ok (s.chroma_server_host ++ ":" ++ s.chroma_server_http_port)) ∧
    (∀ impl, s.chroma_api_impl = some impl →
      impl ≠ "chromadb.api.segment.SegmentAPI" →
      impl ≠ "chromadb.api.fastapi.FastAPI" →
      getIdentifierFromSettings s =
        .error (.unsupportedImplementationError impl)) := by
  refine ⟨?_, ?_, ?_, ?_, ?_⟩
  · intro h
    simp [getIdentifierFromSettings, h]
  · intro h hp
    simp [getIdentifierFromSettings, h, hp]
  · intro h hp
    simp [getIdentifierFromSettings, h, hp]
  · intro h
    simp [getIdentifierFromSettings, h]
  · intro impl h h1 h2
    simp [getIdentifierFromSettings, h, h1, h2]

/-- Witness for C3: concrete settings hitting every branch of the
resolution contract. -/
theorem identifier_resolution_spec_witness :
    (segmentPersistentSettings.chroma_api_impl =
        some "chromadb.api.segment.SegmentAPI" ∧
      segmentPersistentSettings.is_persistent = true ∧
      getIdentifierFromSettings segmentPersistentSettings = .ok "/tmp/x") ∧
    (segmentEphemeralSettings.is_persistent = false ∧
      getIdentifierFromSettings segmentEphemeralSettings = .ok "ephemeral") ∧
    (fastapiSettings.chroma_api_impl = some "chromadb.api.fastapi.FastAPI" ∧
      getIdentifierFromSettings fastapiSettings = .ok "h:8000") ∧
    (unsetSettings.chroma_api_impl = none ∧
      getIdentifierFromSettings unsetSettings = .error .configurationError) ∧
    (bogusSettings.chroma_api_impl = some "my.custom.Backend" ∧
      getIdentifierFromSettings bogusSettings =
        .error (.unsupportedImplementationError "my.custom.Backend")) :=
  ⟨⟨rfl, rfl, (identifier_resolution_spec segmentPersistentSettings).2.1 rfl rfl⟩,
    ⟨rfl, (identifier_resolution_spec segmentEphemeralSettings).2.2.1 rfl rfl⟩,
    ⟨rfl, (identifier_resolution_spec fastapiSettings).2.2.2.1 rfl⟩,
    ⟨rfl, (identifier_resolution_spec unsetSettings).1 rfl⟩,
    ⟨rfl, (identifier_resolution_spec bogusSettings).2.2.2.2 "my.custom.Backend"
      rfl (by decide) (by decide)⟩⟩

/-- C2: when the identifier is already present in the registry, get-or-create
returns the stored instance if the stored settings equal the requested ones
by value, and fails with the settings-conflict error otherwise; in both
cases the registry state is unchanged (and no lifecycle event is emitted). -/
theorem get_or_create_present_spec (st : RegistryState) (identifier : String)
    (settings : Settings) (prev : System)
    (h : lookupSystem st.identiferToSystem identifier = some prev) :
    (prev.settings = settings →
      createSystemIfNotExists st identifier settings = (.ok prev, st, [])) ∧
    (prev.settings ≠ settings →
      createSystemIfNotExists st identifier settings =
        (.error (.settingsConflictError identifier), st, [])) := by
  constructor
  · intro he
    simp [createSystemIfNotExists, h, he]
  · intro he
    simp [createSystemIfNotExists, h, he]

/-- Witness for C2: a registry holding the ephemeral system; re-requesting
with equal settings returns it, re-requesting with different settings fails
and leaves the state alone. -/
theorem get_or_create_present_spec_witness :
    lookupSystem regW.identiferToSystem "ephemeral" = some sysW ∧
    sysW.settings = segmentEphemeralSettings ∧
    createSystemIfNotExists regW "ephemeral" segmentEphemeralSettings =
      (.ok sysW, regW, []) ∧
    sysW.settings ≠ fastapiSettings ∧
    createSystemIfNotExists regW "ephemeral" fastapiSettings =
      (.error (.settingsConflictError "ephemeral"), regW, []) :=
  ⟨rfl, rfl,
    (get_or_create_present_spec regW "ephemeral" segmentEphemeralSettings sysW
      rfl).1 rfl,
    by decide,
    (get_or_create_present_spec regW "ephemeral" fastapiSettings sysW rfl).2
      (by decide)⟩

/-- C10: the item-level and collection-modify operations and the
server-level operations forward to the `ServerAPI` without passing any
tenant or database keyword argument; exactly the five collection-level
operations inject the proxy's current tenant/database pair. -/
theorem forwarding_context_injection (c : ClientHandle)
    (ef : Arg (Option EmbeddingFunction)) :
    ((Client._add c).tenant = none ∧ (Client._add c).database = none) ∧
    ((Client._update c).tenant = none ∧ (Client._update c).database = none) ∧
    ((Client._upsert c).tenant = none ∧ (Client._upsert c).database = none) ∧
    ((Client._count c).tenant = none ∧ (Client._count c).database = none) ∧
    ((Client._peek c).tenant = none ∧ (Client._peek c).database = none) ∧
    ((Client._get c).tenant = none ∧ (Client._get c).database = none) ∧
    ((Client._delete c).tenant = none ∧ (Client._delete c).database = none) ∧
    ((Client._query c).tenant = none ∧ (Client._query c).database = none) ∧
    ((Client._modify c).tenant = none ∧ (Client._modify c).database = none) ∧
    ((Client.heartbeat c).tenant = none ∧ (Client.heartbeat c).database = none) ∧
    ((Client.reset c).tenant = none ∧ (Client.reset c).database = none) ∧
    ((Client.get_version c).tenant = none ∧
      (Client.get_version c).database = none) ∧
    ((Client.get_settings c).tenant = none ∧
      (Client.get_settings c).database = none) ∧
    ((Client.max_batch_size c).tenant = none ∧
      (Client.max_batch_size c).database = none) ∧
    ((Client.list_collections c).tenant = some c.tenant ∧
      (Client.list_collections c).database = some c.database) ∧
    ((Client.create_collection c ef).tenant = some c.tenant ∧
      (Client.create_collection c ef).database = some c.database) ∧
    ((Client.get_collection c ef).tenant = some c.tenant ∧
      (Client.get_collection c ef).database = some c.database) ∧
    ((Client.get_or_create_collection c ef).tenant = some c.tenant ∧
      (Client.get_or_create_collection c ef).database = some c.database) ∧
    ((Client.delete_collection c).tenant = some c.tenant ∧
      (Client.delete_collection c).database = some c.database) := by
  repeat constructor

/-- C8: omitting the embedding function on create/get/get-or-create
substitutes the one shared default instance and forwards it to the
`ServerAPI`; supplying an embedding function forwards the supplied value
instead. All three methods substitute the same `DefaultEmbeddingFunction`
instance. -/
theorem default_embedding_function_substitution (c : ClientHandle)
    (v : Option EmbeddingFunction) :
    (Client.create_collection c .omitted).embedding_function =
      some (some DefaultEmbeddingFunction) ∧
    (Client.get_collection c .omitted).embedding_function =
      some (some DefaultEmbeddingFunction) ∧
    (Client.get_or_create_collection c .omitted).embedding_function =
      some (some DefaultEmbeddingFunction) ∧
    (Client.create_collection c (.supplied v)).embedding_function = some v ∧
    (Client.get_collection c (.supplied v)).embedding_function = some v ∧
    (Client.get_or_create_collection c (.supplied v)).embedding_function =
      some v :=
  ⟨rfl, rfl, rfl, rfl, rfl, rfl⟩

/-- C7: `set_tenant` (`set_database`) mutates only the proxy's tenant
(database) field; tenant/database-scoped calls issued after the mutation
forward the new value; and the calls dispatched by any prefix of operations
preceding the mutation are exactly the calls that prefix dispatches on its
own, so no earlier call is affected. -/
theorem set_tenant_database_scoping (c : ClientHandle) (t d : String)
    (ef : Arg (Option EmbeddingFunction)) (pre post : List ProxyOp) :
    Client.set_tenant c t =
      ⟨c.identifier, t, c.database, c.serverRef⟩ ∧
    Client.set_database c d =
      ⟨c.identifier, c.tenant, d, c.serverRef⟩ ∧
    (Client.list_collections (Client.set_tenant c t)).tenant = some t ∧
    (Client.create_collection (Client.set_tenant c t) ef).tenant = some t ∧
    (Client.get_collection (Client.set_tenant c t) ef).tenant = some t ∧
    (Client.get_or_create_collection (Client.set_tenant c t) ef).tenant =
      some t ∧
    (Client.delete_collection (Client.set_tenant c t)).tenant = some t ∧
    (Client.list_collections (Client.set_database c d)).database = some d ∧
    (Client.create_collection (Client.set_database c d) ef).database = some d ∧
    (Client.get_collection (Client.set_database c d) ef).database = some d ∧
    (Client.get_or_create_collection (Client.set_database c d) ef).database =
      some d ∧
    (Client.delete_collection (Client.set_database c d)).database = some d ∧
    (clientRun c (pre ++ ProxyOp.setTenant t :: post)).2 =
      (clientRun c pre).2 ++
        (clientRun (Client.set_tenant (clientRun c pre).1 t) post).2 ∧
    (clientRun c (pre ++ ProxyOp.setDatabase d :: post)).2 =
      (clientRun c pre).2 ++
        (clientRun (Client.set_database (clientRun c pre).1 d) post).2 := by
  refine ⟨rfl, rfl, rfl, rfl, rfl, rfl, rfl, rfl, rfl, rfl, rfl, rfl, ?_, ?_⟩
  · rw [clientRun_append]
    simp [clientRun, clientStep]
  · rw [clientRun_append]
    simp [clientRun, clientStep]

theorem systemOf_regRun_noclear (id : String) (sys : System) :
    ∀ ops : List RegOp, RegOp.clear ∉ ops →
      ∀ st, systemOf st id = some sys →
        systemOf (regRun st ops) id = some sys := by
  intro ops
  induction ops with
  | nil =>
    intro _ st h
    exact h
  | cons op ops ih =>
    intro hnc st h
    rw [List.mem_cons] at hnc
    cases op with
    | clear => exact absurd (Or.inl rfl) hnc
    | construct s =>
      exact ih (fun hm => hnc (Or.inr hm)) _
        (systemOf_construct_preserved st s id sys h)

/-- C1: in every reachable registry state each identifier maps to at most
one system instance, and two constructions whose settings are structurally
equal — the second following the first after any clear-free sequence of
further operations — yield the very same system instance (same allocation
identity, not merely equal contents). This covers `SharedSystemClient`,
`Client` and `AdminClient` alike: all three mutate the registry only
through `SharedSystemClient.__init__`. -/
theorem shared_system_identity :
    (∀ st, Reachable st → (st.identiferToSystem.map Prod.fst).Nodup) ∧
    (∀ st s id1 sys1 st1 evs1 ops id2 sys2 st2 evs2,
      sharedSystemClientInit st s = (.ok (id1, sys1), st1, evs1) →
      RegOp.clear ∉ ops →
      sharedSystemClientInit (regRun st1 ops) s =
        (.ok (id2, sys2), st2, evs2) →
      id1 = id2 ∧ sys1 = sys2) := by
  constructor
  · intro st h
    exact (registryWF_of_reachable h).2
  · intro st s id1 sys1 st1 evs1 ops id2 sys2 st2 evs2 h1 hnc h2
    obtain ⟨hid1, hset1, hlook1, _⟩ :=
      sharedInit_ok_facts st s id1 sys1 st1 evs1 h1
    have hl : lookupSystem (regRun st1 ops).identiferToSystem id1 = some sys1 :=
      systemOf_regRun_noclear id1 sys1 ops hnc st1 hlook1
    have heval : sharedSystemClientInit (regRun st1 ops) s =
        (.ok (id1, sys1), regRun st1 ops, []) := by
      simp [sharedSystemClientInit, hid1, createSystemIfNotExists, hl, hset1]
    rw [h2] at heval
    simp only [Prod.mk.injEq, Except.ok.injEq] at heval
    exact ⟨heval.1.1.symm, heval.1.2.symm⟩

/-- Witness for C1: the ephemeral construction repeated from the empty
registry returns the identical system instance both times, and the
resulting state is reachable with no duplicated identifier. -/
theorem shared_system_identity_witness :
    Reachable regW ∧ (regW.identiferToSystem.map Prod.fst).Nodup ∧
    sharedSystemClientInit emptyRegistry segmentEphemeralSettings =
      (.ok ("ephemeral", sysW), regW, [.constructed 0, .started 0]) ∧
    sharedSystemClientInit regW segmentEphemeralSettings =
      (.ok ("ephemeral", sysW), regW, []) ∧
    ("ephemeral" : String) = "ephemeral" ∧ sysW = sysW :=
  have hreach : Reachable regW := ⟨[.construct segmentEphemeralSettings], rfl⟩
  have h1 : sharedSystemClientInit emptyRegistry segmentEphemeralSettings =
      (.ok ("ephemeral", sysW), regW, [.constructed 0, .started 0]) := rfl
  have h2 : sharedSystemClientInit regW segmentEphemeralSettings =
      (.ok ("ephemeral", sysW), regW, []) := rfl
  ⟨hreach, shared_system_identity.1 regW hreach, h1, h2,
    shared_system_identity.2 emptyRegistry segmentEphemeralSettings
      "ephemeral" sysW regW [.constructed 0, .started 0] []
      "ephemeral" sysW regW [] h1 (List.not_mem_nil _) h2⟩

/-- C5: `clear_system_cache` replaces the mapping by the empty one while
emitting no lifecycle event (so no teardown on any evicted instance), and a
construction performed after the clear — with any settings, in particular
the settings previously used — allocates a brand-new system instance whose
identity differs from that of every instance that existed before the
clear. -/
theorem clear_cache_resets (st : RegistryState) (identifier : String)
    (s : Settings) (hr : Reachable st)
    (hid : getIdentifierFromSettings s = .ok identifier) :
    clearSystemCache st = (⟨[], st.nextId⟩, []) ∧
    sharedSystemClientInit (clearSystemCache st).1 s =
      (.ok (identifier, ⟨st.nextId, s⟩),
        ⟨[(identifier, ⟨st.nextId, s⟩)], st.nextId + 1⟩,
        [.constructed st.nextId, .started st.nextId]) ∧
    ∀ p ∈ st.identiferToSystem, (⟨st.nextId, s⟩ : System).sysId ≠ p.2.sysId := by
  refine ⟨rfl, ?_, ?_⟩
  · simp [sharedSystemClientInit, hid, createSystemIfNotExists,
      clearSystemCache, lookupSystem]
  · intro p hp hne
    have hlt := (registryWF_of_reachable hr).1 p hp
    simp only [] at hne
    omega

/-- Witness for C5: clearing the one-entry reachable registry and
re-constructing with the same ephemeral settings yields a fresh system with
identity 1, distinct from the evicted system with identity 0. -/
theorem clear_cache_resets_witness :
    Reachable regW ∧
    getIdentifierFromSettings segmentEphemeralSettings = .ok "ephemeral" ∧
    (clearSystemCache regW = (⟨[], 1⟩, []) ∧
      sharedSystemClientInit (clearSystemCache regW).1
          segmentEphemeralSettings =
        (.ok ("ephemeral", ⟨1, segmentEphemeralSettings⟩),
          ⟨[("ephemeral", ⟨1, segmentEphemeralSettings⟩)], 2⟩,
          [.constructed 1, .started 1]) ∧
      ∀ p ∈ regW.identiferToSystem,
        (⟨1, segmentEphemeralSettings⟩ : System).sysId ≠ p.2.sysId) :=
  have hreach : Reachable regW := ⟨[.construct segmentEphemeralSettings], rfl⟩
  ⟨hreach, rfl,
    clear_cache_resets regW "ephemeral" segmentEphemeralSettings hreach rfl⟩

/-- Counterexample to C6 as stated: a successfully constructed client with
identifier "ephemeral" exists, yet after `clear_system_cache` the registry
state — a reachable state — no longer contains its identifier, so the
`_system` property's dict lookup raises `KeyError` (modelled `none`): the
dereference does NOT succeed in every reachable state following
`clear()`. -/
theorem dereference_after_clear_counterexample :
    clientInit emptyRegistry "default" "default" segmentEphemeralSettings
        none =
      (.ok ⟨"ephemeral", "default", "default", 0⟩, regW,
        [.constructed 0, .started 0]) ∧
    systemOf (clearSystemCache regW).1 "ephemeral" = none :=
  ⟨rfl, rfl⟩

/-- C6 amended: after a successful construction the handle's `_system`
dereference succeeds, and it keeps succeeding in every registry state
reached by further operations that do not include `clear_system_cache`;
a `clear` evicts the identifier and makes the dereference fail until a new
construction re-registers it. -/
theorem dereference_valid_without_clear :
    (∀ st s id sys st1 evs,
      sharedSystemClientInit st s = (.ok (id, sys), st1, evs) →
      systemOf st1 id = some sys) ∧
    (∀ st id sys ops, systemOf st id = some sys → RegOp.clear ∉ ops →
      systemOf (regRun st ops) id = some sys) := by
  constructor
  · intro st s id sys st1 evs h
    exact (sharedInit_ok_facts st s id sys st1 evs h).2.2.1
  · intro st id sys ops h hnc
    exact systemOf_regRun_noclear id sys ops hnc st h

/-- Witness for C6 amended: the ephemeral construction from the empty
registry, followed by a clear-free sequence of further constructions, keeps
the handle's dereference valid. -/
theorem dereference_valid_without_clear_witness :
    sharedSystemClientInit emptyRegistry segmentEphemeralSettings =
      (.ok ("ephemeral", sysW), regW, [.constructed 0, .started 0]) ∧
    systemOf regW "ephemeral" = some sysW ∧
    RegOp.clear ∉ [RegOp.construct fastapiSettings,
      RegOp.construct segmentEphemeralSettings] ∧
    systemOf (regRun regW [RegOp.construct fastapiSettings,
      RegOp.construct segmentEphemeralSettings]) "ephemeral" = some sysW :=
  have h1 : sharedSystemClientInit emptyRegistry segmentEphemeralSettings =
      (.ok ("ephemeral", sysW), regW, [.constructed 0, .started 0]) := rfl
  have hnc : RegOp.clear ∉ [RegOp.construct fastapiSettings,
      RegOp.construct segmentEphemeralSettings] := by decide
  ⟨h1, dereference_valid_without_clear.1 emptyRegistry
      segmentEphemeralSettings "ephemeral" sysW regW
      [.constructed 0, .started 0] h1,
    hnc,
    dereference_valid_without_clear.2 regW "ephemeral" sysW
      [RegOp.construct fastapiSettings,
        RegOp.construct segmentEphemeralSettings]
      (dereference_valid_without_clear.1 emptyRegistry
        segmentEphemeralSettings "ephemeral" sysW regW
        [.constructed 0, .started 0] h1) hnc⟩

/-- Counterexample to C4 as stated: from the empty registry, identifier
resolution and registry lookup both succeed (with a working capture the
same construction completes and returns a handle), yet when the telemetry
capture of the client-start event raises, `Client.__init__` propagates that
failure instead of discarding it: construction does not complete. -/
theorem telemetry_not_contained_counterexample :
    clientInit emptyRegistry "default" "default" segmentEphemeralSettings
        none =
      (.ok ⟨"ephemeral", "default", "default", 0⟩, regW,
        [.constructed 0, .started 0]) ∧
    clientInit emptyRegistry "default" "default" segmentEphemeralSettings
        (some "telemetry backend unreachable") =
      (.error (.externalError "telemetry backend unreachable"), regW,
        [.constructed 0, .started 0]) :=
  ⟨rfl, rfl⟩

/-- C4 amended: `Client.__init__` contains no handler around the telemetry
capture of the client-start event. When identifier resolution and registry
lookup succeed, construction completes exactly when the capture does not
raise; a raising capture propagates out of the constructor (while the
registry mutation already performed is retained). -/
theorem telemetry_failure_propagates (st : RegistryState)
    (tenant database : String) (s : Settings) (id : String) (sys : System)
    (st1 : RegistryState) (evs : List Event)
    (h : sharedSystemClientInit st s = (.ok (id, sys), st1, evs)) :
    clientInit st tenant database s none =
      (.ok ⟨id, tenant, database, sys.sysId⟩, st1, evs) ∧
    ∀ msg, clientInit st tenant database s (some msg) =
      (.error (.externalError msg), st1, evs) := by
  constructor
  · simp [clientInit, h]
  · intro msg
    simp [clientInit, h]

/-- Witness for C4 amended: the concrete ephemeral construction, with a
working capture and with a raising capture. -/
theorem telemetry_failure_propagates_witness :
    sharedSystemClientInit emptyRegistry segmentEphemeralSettings =
      (.ok ("ephemeral", sysW), regW, [.constructed 0, .started 0]) ∧
    (clientInit emptyRegistry "default" "default" segmentEphemeralSettings
        none =
      (.ok ⟨"ephemeral", "default", "default", 0⟩, regW,
        [.constructed 0, .started 0]) ∧
    ∀ msg, clientInit emptyRegistry "default" "default"
        segmentEphemeralSettings (some msg) =
      (.error (.externalError msg), regW, [.constructed 0, .started 0])) :=
  have h1 : sharedSystemClientInit emptyRegistry segmentEphemeralSettings =
      (.ok ("ephemeral", sysW), regW, [.constructed 0, .started 0]) := rfl
  ⟨h1, telemetry_failure_propagates emptyRegistry "default" "default"
    segmentEphemeralSettings "ephemeral" sysW regW
    [.constructed 0, .started 0] h1⟩
